import Mathlib

/-! Shallow embedding of the HappyRobot Freight API (`main.py`): the API-key
authentication gate, the fail-open load-catalog loader, the conjunctive load
search filter, and the FMCSA carrier-verification client, together with
theorems settling the specification claims about them. -/

namespace HappyRobot

/-! Python string primitives.

The source manipulates Python strings with `str.lower`, `str.strip`,
substring containment (`in`), `str.isdigit` and `str.split(" ", 1)`.
They are modelled over `List Char`.  Every string the claims exercise is
ASCII, where `Char.toLower`, `Char.isDigit` and `Char.isWhitespace` agree
with the Python behaviour. -/

/-- Python `str.lower()` (ASCII case folding). -/
def pyLower (s : String) : String :=
  ⟨s.toList.map Char.toLower⟩

/-- Python `str.strip()`: removes leading and trailing whitespace. -/
def pyStrip (s : String) : String :=
  ⟨((s.toList.dropWhile Char.isWhitespace).reverse.dropWhile Char.isWhitespace).reverse⟩

/-- Contiguous-substring test on character lists, `needle` occurs in `hay`. -/
def listHasSub (hay needle : List Char) : Bool :=
  (List.range (hay.length + 1)).any fun i => needle.isPrefixOf (hay.drop i)

/-- Python `needle in hay` for strings. -/
def pyContains (hay needle : String) : Bool :=
  listHasSub hay.toList needle.toList

/-- Python `str.isdigit()`: nonempty and composed of digits.  (On non-ASCII
input Python additionally accepts other Unicode digit codepoints; no input in
this development contains any.) -/
def pyIsdigit (s : String) : Bool :=
  !s.toList.isEmpty && s.toList.all Char.isDigit

/-- Python `s.split(" ", 1)` reduced to what the gate needs: `none` when `s`
has no space (the split yields a single part), `some (before, after)` splits
at the first space. -/
def splitFirstSpace : List Char → Option (List Char × List Char)
  | [] => none
  | c :: cs =>
    if c = ' ' then some ([], cs)
    else
      match splitFirstSpace cs with
      | none => none
      | some (a, b) => some (c :: a, b)

/-- Python truthiness of an optional string: `None` and `""` are falsy. -/
def pyTruthyOpt : Option String → Bool
  | none => false
  | some s => !(s == "")

/-! Data model. -/

/-- One freight load record.  Only the fields `search_loads` reads (via
`load.get(key, "")`, so a missing key behaves as `""`) plus the identifier
are modelled; the remaining payload fields (timestamps, rate, weight, ...)
are never inspected by the search and are carried through untouched. -/
structure Load where
  load_id : String
  origin : String
  destination : String
  equipment_type : String
  deriving DecidableEq, Repr

/-- The state of the static source `loads.json` as one request observes it:
absent, present but unparseable (with the parse-error text), or parsed. -/
inductive LoadsFile where
  | absent : LoadsFile
  | malformed (err : String) : LoadsFile
  | parsed (loads : List Load) : LoadsFile
  deriving DecidableEq, Repr

/-- An HTTP error raised via `HTTPException`. -/
structure HTTPError where
  status_code : Nat
  detail : String
  deriving DecidableEq, Repr

/-- The `CarrierVerificationResponse` pydantic model. -/
structure CarrierVerificationResponse where
  mc_number : String
  is_eligible : Bool
  company_name : Option String := none
  safety_rating : Option String := none
  operating_status : Option String := none
  message : String
  deriving DecidableEq, Repr

/-- The `carrier` object of a parsed FMCSA 200 body.  Each field is read with
`dict.get`; `none` models an absent key or a JSON `null` value.  (The two
differ in Python only for `dbaName` read with a `get` default, which affects
only the `company_name` echo; no claim inspects that case.)  `statusCode` is
extracted by the source but never used. -/
structure FmcsaCarrier where
  legalName : Option String := none
  dbaName : Option String := none
  allowedToOperate : Option String := none
  statusCode : Option String := none
  safetyRating : Option String := none
  oosDate : Option String := none
  deriving DecidableEq, Repr

/-- The `content` object: `carrier = none` models `content.get("carrier", {})`
being falsy (key absent or empty object). -/
structure FmcsaContent where
  carrier : Option FmcsaCarrier
  deriving DecidableEq, Repr

/-- A parsed FMCSA 200 body: `content = none` models `data.get("content", {})`
being falsy (key absent or empty object). -/
structure FmcsaBody where
  content : Option FmcsaContent
  deriving DecidableEq, Repr

/-- Result of `response.json()` on a 200 response. -/
inductive FmcsaBodyResult where
  | ok (body : FmcsaBody)
  | parseError (e : String)
  deriving DecidableEq, Repr

/-- The observable outcome of the single FMCSA HTTP call of one request. -/
inductive FmcsaOutcome where
  | http (status : Nat) (text : String) (body : FmcsaBodyResult)
  | timeout
  | connectError (e : String)
  deriving DecidableEq, Repr

/-- Result of an endpoint body: a JSON payload or a raised `HTTPException`. -/
inductive VerifyResult where
  | verdict (r : CarrierVerificationResponse)
  | error (e : HTTPError)
  deriving DecidableEq, Repr

/-- Environment-sourced configuration; `os.getenv` defaults both secrets to
`""`, so `""` is the unconfigured state. -/
structure Config where
  API_KEY : String
  FMCSA_API_KEY : String
  deriving DecidableEq, Repr

/-! Catalog loader: main.py `load_loads_from_file`, lines 76-89. -/

/-- The function `load_loads_from_file`: fail-open loader.  Returns the catalog together
with the `print` diagnostics it emits; neither branch raises. -/
def load_loads_from_file : LoadsFile → List Load × List String
  | .absent => ([], ["Warning: loads.json not found. Using empty list."])
  | .malformed e => ([], ["Error loading loads.json: " ++ e])
  | .parsed loads =>
    (loads, ["Loaded " ++ toString loads.length ++ " loads from loads.json"])

/-! Authentication gate: main.py `verify_api_key`, lines 93-105. -/

/-- The function `verify_api_key`: `none` = success, `some e` = the `HTTPException`
raised.  The `authorization` argument is `none` when the header is absent;
`if not authorization` also treats `""` as missing. -/
def verify_api_key (API_KEY : String) (authorization : Option String) :
    Option HTTPError :=
  match authorization with
  | none => some ⟨403, "Missing Authorization header"⟩
  | some a =>
    if a = "" then some ⟨403, "Missing Authorization header"⟩
    else
      match splitFirstSpace a.toList with
      | none => some ⟨403, "Invalid Authorization format. Expected: ApiKey <key>"⟩
      | some (scheme, token) =>
        if scheme ≠ "ApiKey".toList then
          some ⟨403, "Invalid Authorization format. Expected: ApiKey <key>"⟩
        else if token ≠ API_KEY.toList then some ⟨403, "Invalid API Key"⟩
        else none

/-! Carrier verification: main.py `verify_carrier`, lines 124-243. -/

/-- Python `carrier.get("legalName") or carrier.get("dbaName", "Unknown")`:
a falsy (`None` or `""`) legal name falls back to the dba name, defaulting
to `"Unknown"` only when that key is absent. -/
def companyNameOf (carrier : FmcsaCarrier) : String :=
  match carrier.legalName with
  | some s => if s = "" then carrier.dbaName.getD "Unknown" else s
  | none => carrier.dbaName.getD "Unknown"

/-- The 200-response normalization of `verify_carrier` (lines 182-232):
empty `content` / `carrier` substructures short-circuit, otherwise the
eligibility verdict is computed from `allowedToOperate` and `oosDate`.
Note the asymmetry in the source: eligibility tests `oos_date is None`,
while the operating-status label tests Python truthiness `if oos_date`. -/
def normalizeCarrier (mc_number : String) (body : FmcsaBody) : VerifyResult :=
  match body.content with
  | none =>
    .verdict { mc_number := mc_number, is_eligible := false,
               message := "Carrier not found in FMCSA database" }
  | some content =>
    match content.carrier with
    | none =>
      .verdict { mc_number := mc_number, is_eligible := false,
                 message := "Carrier information not available" }
    | some carrier =>
      let company_name := companyNameOf carrier
      let allowed_to_operate := carrier.allowedToOperate.getD "N"
      let oos_date := carrier.oosDate
      let is_eligible := allowed_to_operate == "Y" && oos_date == none
      let operating_status :=
        if pyTruthyOpt oos_date then "Out of Service"
        else if allowed_to_operate == "Y" then "Active"
        else "Not Authorized"
      let message :=
        "Carrier is " ++ (if is_eligible then "eligible" else "not eligible")
          ++ " to operate"
      .verdict { mc_number := mc_number, is_eligible := is_eligible,
                 company_name := some company_name,
                 safety_rating := carrier.safetyRating,
                 operating_status := some operating_status,
                 message := message }

/-- The `verify_carrier` endpoint body after authentication (lines 132-243),
as a function of the raw path parameter, the configured FMCSA credential and
the outcome of the single FMCSA call (consulted only when the call is
reached).  The source's broad `except Exception` would additionally rewrap
the `HTTPException`s raised for status 401 and other non-200 statuses inside
an "Unexpected error: ..." 500; that rewrap changes only the detail text of
those error branches, which no claim inspects, so the pre-wrap detail is
kept here. -/
def verify_carrier (mc_number_raw FMCSA_API_KEY : String)
    (fmcsa : FmcsaOutcome) : VerifyResult :=
  let mc_number := pyStrip mc_number_raw
  if !pyIsdigit mc_number then
    .verdict { mc_number := mc_number, is_eligible := false,
               message := "Invalid MC number format" }
  else if FMCSA_API_KEY = "" then
    .error ⟨500,
      "FMCSA API key not configured. Set FMCSA_API_KEY environment variable."⟩
  else
    match fmcsa with
    | .timeout => .error ⟨504, "FMCSA API request timed out"⟩
    | .connectError e => .error ⟨500, "Error connecting to FMCSA API: " ++ e⟩
    | .http status text body =>
      if status = 404 then
        .verdict { mc_number := mc_number, is_eligible := false,
                   message := "Carrier not found in FMCSA database" }
      else if status = 401 then .error ⟨500, "Invalid FMCSA API key"⟩
      else if status ≠ 200 then
        .error ⟨500, "FMCSA API error: " ++ toString status ++ " - "
                 ++ String.mk (text.toList.take 200)⟩
      else
        match body with
        | .parseError e => .error ⟨500, "Unexpected error: " ++ e⟩
        | .ok b => normalizeCarrier mc_number b

/-! Load search: main.py `search_loads`, lines 245-310. -/

/-- Origin filter step: applied only when the raw query is truthy; keeps a
record when the lowered-then-stripped query occurs in the lowered field. -/
def applyOriginFilter (origin : Option String) (results : List Load) :
    List Load :=
  match origin with
  | none => results
  | some o =>
    if o = "" then results
    else results.filter fun load =>
      pyContains (pyLower load.origin) (pyStrip (pyLower o))

/-- Destination filter step: same containment rule on the destination. -/
def applyDestinationFilter (destination : Option String)
    (results : List Load) : List Load :=
  match destination with
  | none => results
  | some d =>
    if d = "" then results
    else results.filter fun load =>
      pyContains (pyLower load.destination) (pyStrip (pyLower d))

/-- Equipment-type filter step: exact (case-insensitive) equality with the
lowered-then-stripped query. -/
def applyEquipmentFilter (equipment_type : Option String)
    (results : List Load) : List Load :=
  match equipment_type with
  | none => results
  | some q =>
    if q = "" then results
    else results.filter fun load =>
      pyLower load.equipment_type == pyStrip (pyLower q)

/-- The `search_loads` endpoint body after authentication (lines 262-310):
fresh catalog read, the three filter steps in fixed order, truncation. -/
def search_loads (file : LoadsFile)
    (origin destination equipment_type : Option String)
    (max_results : Nat) : List Load :=
  let all_loads := (load_loads_from_file file).1
  if all_loads.isEmpty then []
  else
    let results := applyOriginFilter origin all_loads
    let results := applyDestinationFilter destination results
    let results := applyEquipmentFilter equipment_type results
    if results.isEmpty then [] else results.take max_results

/-! Route-level composition. -/

/-- The full `/api/v1/verify-carrier` handler: authentication gate first,
short-circuiting on failure, then the verification body. -/
def verify_carrier_endpoint (cfg : Config) (authorization : Option String)
    (mc_number : String) (fmcsa : FmcsaOutcome) : VerifyResult :=
  match verify_api_key cfg.API_KEY authorization with
  | some e => .error e
  | none => verify_carrier mc_number cfg.FMCSA_API_KEY fmcsa

/-- The full `/api/v1/loads/search` handler: authentication gate first,
short-circuiting on failure, then the search body. -/
def search_loads_endpoint (cfg : Config) (authorization : Option String)
    (file : LoadsFile) (origin destination equipment_type : Option String)
    (max_results : Nat) : Except HTTPError (List Load) :=
  match verify_api_key cfg.API_KEY authorization with
  | some e => .error e
  | none =>
    .ok (search_loads file origin destination equipment_type max_results)

/-! Derived filter predicates.

Per-record predicates of the three filter steps, used to state that the
sequential filtering is one conjunctive filter over the catalog. -/

/-- Predicate of the origin filter step (`true` when the filter is skipped). -/
def originPred : Option String → Load → Bool
  | none, _ => true
  | some o, load =>
    if o = "" then true
    else pyContains (pyLower load.origin) (pyStrip (pyLower o))

/-- Predicate of the destination filter step. -/
def destinationPred : Option String → Load → Bool
  | none, _ => true
  | some d, load =>
    if d = "" then true
    else pyContains (pyLower load.destination) (pyStrip (pyLower d))

/-- Predicate of the equipment-type filter step. -/
def equipmentPred : Option String → Load → Bool
  | none, _ => true
  | some q, load =>
    if q = "" then true
    else pyLower load.equipment_type == pyStrip (pyLower q)

/-- Conjunction of the three filter-step predicates. -/
def matchesFilters (origin destination equipment_type : Option String)
    (load : Load) : Bool :=
  originPred origin load && destinationPred destination load
    && equipmentPred equipment_type load
/-! Sample records used to instantiate theorems at concrete inputs. -/

/-- Sample catalog record: a dry-van load from Chicago to Dallas. -/
def chicagoLoad : Load := ⟨"L001", "Chicago, IL", "Dallas, TX", "Dry Van"⟩

/-- Sample catalog record: a reefer load from Dallas to Atlanta. -/
def dallasLoad : Load := ⟨"L002", "Dallas, TX", "Atlanta, GA", "Reefer"⟩

/-- Sample catalog record whose equipment type strictly extends "Dry Van". -/
def dryVanPlusLoad : Load := ⟨"L003", "Chicago, IL", "Dallas, TX", "Dry Van Plus"⟩

/-- Sample FMCSA carrier that is out of service as of 2023-01-01. -/
def oosCarrier : FmcsaCarrier :=
  { allowedToOperate := some "Y", oosDate := some "2023-01-01" }

/-! Character-level facts. -/

/-- A decimal digit is not whitespace. -/
theorem not_ws_of_isDigit {c : Char} (h : c.isDigit = true) :
    c.isWhitespace = false := by
  by_contra hw
  rw [Bool.not_eq_false] at hw
  simp only [Char.isWhitespace, Bool.or_eq_true, decide_eq_true_eq] at hw
  rcases hw with ((rfl | rfl) | rfl) | rfl <;> exact absurd h (by decide)

/-- Case folding fixes whitespace characters. -/
theorem toLower_of_isWhitespace {c : Char} (h : c.isWhitespace = true) :
    c.toLower = c := by
  simp only [Char.isWhitespace, Bool.or_eq_true, decide_eq_true_eq] at h
  rcases h with ((rfl | rfl) | rfl) | rfl <;> decide

/-- Dropping by a predicate that fails on every element is the identity. -/
theorem dropWhile_eq_self_of {p : Char → Bool} :
    ∀ {l : List Char}, (∀ c ∈ l, p c = false) → l.dropWhile p = l
  | [], _ => rfl
  | c :: cs, h => by
    rw [List.dropWhile_cons, h c (List.mem_cons_self c cs)]
    simp

/-- Dropping by a predicate that holds on every element empties the list. -/
theorem dropWhile_eq_nil_of {p : Char → Bool} :
    ∀ {l : List Char}, (∀ c ∈ l, p c = true) → l.dropWhile p = []
  | [], _ => rfl
  | c :: cs, h => by
    rw [List.dropWhile_cons, h c (List.mem_cons_self c cs)]
    simp only [if_true]
    exact dropWhile_eq_nil_of fun x hx => h x (List.mem_cons_of_mem c hx)

/-- Stripping an all-digit (hence whitespace-free) string is the identity. -/
theorem pyStrip_of_isdigit {s : String} (h : pyIsdigit s = true) :
    pyStrip s = s := by
  have hall : ∀ c ∈ s.toList, c.isDigit = true := by
    simp only [pyIsdigit, Bool.and_eq_true, List.all_eq_true] at h
    exact h.2
  have hws : ∀ c ∈ s.toList, c.isWhitespace = false := fun c hc =>
    not_ws_of_isDigit (hall c hc)
  unfold pyStrip
  rw [dropWhile_eq_self_of hws,
      dropWhile_eq_self_of (fun c hc => hws c (List.mem_reverse.mp hc)),
      List.reverse_reverse]
  exact String.ext rfl

/-- Lowering then stripping a whitespace-only string yields the empty string. -/
theorem pyStrip_pyLower_all_ws {w : String}
    (h : w.toList.all Char.isWhitespace = true) : pyStrip (pyLower w) = "" := by
  have hall : ∀ c ∈ (pyLower w).toList, c.isWhitespace = true := by
    intro c hc
    rw [List.all_eq_true] at h
    obtain ⟨a, ha, rfl⟩ := List.mem_map.mp hc
    rw [toLower_of_isWhitespace (h a ha)]
    exact h a ha
  unfold pyStrip
  rw [dropWhile_eq_nil_of hall]
  rfl

/-- The empty character list occurs in every list. -/
theorem listHasSub_nil (hay : List Char) : listHasSub hay [] = true :=
  List.any_eq_true.mpr ⟨0, by simp, List.isPrefixOf_nil_left⟩

/-- The empty string occurs in every string (Python `"" in s` is `True`). -/
theorem pyContains_empty (hay : String) : pyContains hay "" = true := by
  simp only [pyContains]
  rw [show ("".toList : List Char) = [] by decide]
  exact listHasSub_nil _

/-! Filter steps as pointwise filters, and the search in closed form. -/

/-- The origin filter step is the filter of its per-record predicate. -/
theorem applyOriginFilter_eq (o : Option String) (l : List Load) :
    applyOriginFilter o l = l.filter (originPred o) := by
  cases o with
  | none => exact (List.filter_eq_self.mpr fun a _ => rfl).symm
  | some q =>
    by_cases hq : q = ""
    · subst hq
      simp only [applyOriginFilter, if_pos rfl]
      exact (List.filter_eq_self.mpr fun a _ => by simp [originPred]).symm
    · simp only [applyOriginFilter, if_neg hq]
      exact List.filter_congr fun a _ => by simp [originPred, hq]

/-- The destination filter step is the filter of its per-record predicate. -/
theorem applyDestinationFilter_eq (d : Option String) (l : List Load) :
    applyDestinationFilter d l = l.filter (destinationPred d) := by
  cases d with
  | none => exact (List.filter_eq_self.mpr fun a _ => rfl).symm
  | some q =>
    by_cases hq : q = ""
    · subst hq
      simp only [applyDestinationFilter, if_pos rfl]
      exact (List.filter_eq_self.mpr fun a _ => by simp [destinationPred]).symm
    · simp only [applyDestinationFilter, if_neg hq]
      exact List.filter_congr fun a _ => by simp [destinationPred, hq]

/-- The equipment filter step is the filter of its per-record predicate. -/
theorem applyEquipmentFilter_eq (e : Option String) (l : List Load) :
    applyEquipmentFilter e l = l.filter (equipmentPred e) := by
  cases e with
  | none => exact (List.filter_eq_self.mpr fun a _ => rfl).symm
  | some q =>
    by_cases hq : q = ""
    · subst hq
      simp only [applyEquipmentFilter, if_pos rfl]
      exact (List.filter_eq_self.mpr fun a _ => by simp [equipmentPred]).symm
    · simp only [applyEquipmentFilter, if_neg hq]
      exact List.filter_congr fun a _ => by simp [equipmentPred, hq]

/-- Closed form of the search over a parsed catalog: one conjunctive filter
followed by truncation. -/
theorem search_loads_parsed_eq (c : List Load) (o d e : Option String)
    (n : Nat) :
    search_loads (.parsed c) o d e n = (c.filter (matchesFilters o d e)).take n := by
  simp only [search_loads, load_loads_from_file]
  rw [applyOriginFilter_eq, applyDestinationFilter_eq, applyEquipmentFilter_eq,
      List.filter_filter, List.filter_filter]
  have hpred : ∀ a : Load,
      ((equipmentPred e a && destinationPred d a) && originPred o a) =
        matchesFilters o d e a := by
    intro a
    simp only [matchesFilters]
    cases originPred o a <;> cases destinationPred d a <;>
      cases equipmentPred e a <;> rfl
  simp only [hpred]
  by_cases hc : c.isEmpty
  · rw [if_pos hc, List.isEmpty_iff] at *
    subst hc
    simp
  · rw [if_neg hc]
    by_cases hr : (c.filter (matchesFilters o d e)).isEmpty
    · rw [if_pos hr]
      rw [List.isEmpty_iff] at hr
      rw [hr]
      simp
    · rw [if_neg hr]

/-- Membership in a search result implies membership in the catalog and all
three per-step predicates. -/
theorem mem_search_matches {c : List Load} {o d e : Option String} {n : Nat}
    {l : Load} (hl : l ∈ search_loads (.parsed c) o d e n) :
    l ∈ c ∧ originPred o l = true ∧ destinationPred d l = true ∧
      equipmentPred e l = true := by
  rw [search_loads_parsed_eq] at hl
  have hm : l ∈ c.filter (matchesFilters o d e) := (List.take_sublist n _).subset hl
  rw [List.mem_filter] at hm
  obtain ⟨hmem, hmatch⟩ := hm
  simp only [matchesFilters, Bool.and_eq_true] at hmatch
  exact ⟨hmem, hmatch.1.1, hmatch.1.2, hmatch.2⟩

/-- With no filter supplied, the search is truncation of the catalog. -/
theorem search_none_take (c : List Load) (n : Nat) :
    search_loads (.parsed c) none none none n = c.take n := by
  rw [search_loads_parsed_eq,
      List.filter_eq_self.mpr fun a _ => (rfl : matchesFilters none none none a = true)]

/-! Per-step no-op lemmas for omitted, empty and whitespace-only queries. -/

/-- An omitted origin query filters nothing. -/
theorem applyOriginFilter_none (l : List Load) :
    applyOriginFilter none l = l := rfl

/-- An omitted destination query filters nothing. -/
theorem applyDestinationFilter_none (l : List Load) :
    applyDestinationFilter none l = l := rfl

/-- An omitted equipment query filters nothing. -/
theorem applyEquipmentFilter_none (l : List Load) :
    applyEquipmentFilter none l = l := rfl

/-- An empty origin query is falsy in Python, so the step is skipped. -/
theorem applyOriginFilter_empty (l : List Load) :
    applyOriginFilter (some "") l = l := by
  simp [applyOriginFilter]

/-- An empty destination query is falsy in Python, so the step is skipped. -/
theorem applyDestinationFilter_empty (l : List Load) :
    applyDestinationFilter (some "") l = l := by
  simp [applyDestinationFilter]

/-- An empty equipment query is falsy in Python, so the step is skipped. -/
theorem applyEquipmentFilter_empty (l : List Load) :
    applyEquipmentFilter (some "") l = l := by
  simp [applyEquipmentFilter]

/-- A whitespace-only origin query strips to the empty substring, which every
field contains, so the step keeps every record. -/
theorem applyOriginFilter_ws {w : String} (hw : ¬w = "")
    (hws : w.toList.all Char.isWhitespace = true) (l : List Load) :
    applyOriginFilter (some w) l = l := by
  simp only [applyOriginFilter, if_neg hw, pyStrip_pyLower_all_ws hws]
  exact List.filter_eq_self.mpr fun a _ => pyContains_empty _

/-- A whitespace-only destination query keeps every record. -/
theorem applyDestinationFilter_ws {w : String} (hw : ¬w = "")
    (hws : w.toList.all Char.isWhitespace = true) (l : List Load) :
    applyDestinationFilter (some w) l = l := by
  simp only [applyDestinationFilter, if_neg hw, pyStrip_pyLower_all_ws hws]
  exact List.filter_eq_self.mpr fun a _ => pyContains_empty _

/-- An empty-string origin parameter behaves as an omitted one. -/
theorem search_origin_empty (file : LoadsFile) (d q : Option String) (n : Nat) :
    search_loads file (some "") d q n = search_loads file none d q n := by
  simp only [search_loads, applyOriginFilter_empty, applyOriginFilter_none]

/-- An empty-string destination parameter behaves as an omitted one. -/
theorem search_destination_empty (file : LoadsFile) (o q : Option String)
    (n : Nat) :
    search_loads file o (some "") q n = search_loads file o none q n := by
  simp only [search_loads, applyDestinationFilter_empty,
    applyDestinationFilter_none]

/-- An empty-string equipment parameter behaves as an omitted one. -/
theorem search_equipment_empty (file : LoadsFile) (o d : Option String)
    (n : Nat) :
    search_loads file o d (some "") n = search_loads file o d none n := by
  simp only [search_loads, applyEquipmentFilter_empty, applyEquipmentFilter_none]

/-- A whitespace-only origin parameter excludes no records. -/
theorem search_origin_ws {w : String} (hw : ¬w = "")
    (hws : w.toList.all Char.isWhitespace = true) (file : LoadsFile)
    (d q : Option String) (n : Nat) :
    search_loads file (some w) d q n = search_loads file none d q n := by
  simp only [search_loads, applyOriginFilter_ws hw hws, applyOriginFilter_none]

/-- A whitespace-only destination parameter excludes no records. -/
theorem search_destination_ws {w : String} (hw : ¬w = "")
    (hws : w.toList.all Char.isWhitespace = true) (file : LoadsFile)
    (o q : Option String) (n : Nat) :
    search_loads file o (some w) q n = search_loads file o none q n := by
  simp only [search_loads, applyDestinationFilter_ws hw hws,
    applyDestinationFilter_none]

/-! Authentication-gate characterization. -/

/-- Soundness of the first-space split: a successful split reassembles to the
original list, with the head part space-free. -/
theorem splitFirstSpace_eq_some {l : List Char} :
    ∀ {a b : List Char}, splitFirstSpace l = some (a, b) → l = a ++ ' ' :: b := by
  induction l with
  | nil => intro a b h; simp [splitFirstSpace] at h
  | cons c cs ih =>
    intro a b h
    by_cases hc : c = ' '
    · subst hc
      simp only [splitFirstSpace, if_pos rfl, Option.some.injEq,
        Prod.mk.injEq] at h
      obtain ⟨rfl, rfl⟩ := h
      rfl
    · simp only [splitFirstSpace, if_neg hc] at h
      cases hsp : splitFirstSpace cs with
      | none => rw [hsp] at h; exact absurd h (by simp)
      | some p =>
        obtain ⟨a', b'⟩ := p
        rw [hsp] at h
        simp only [Option.some.injEq, Prod.mk.injEq] at h
        obtain ⟨rfl, rfl⟩ := h
        rw [List.cons_append, ← ih hsp]

/-- A string whose character list is `"ApiKey"` then a space then `k` is the
string `"ApiKey " ++ k`. -/
theorem string_eq_of_toList_append {a k : String}
    (h : a.toList = "ApiKey".toList ++ ' ' :: k.toList) : a = "ApiKey " ++ k := by
  apply String.ext
  rw [String.data_append]
  rw [show ("ApiKey ".data : List Char) = "ApiKey".data ++ [' '] by decide,
      List.append_assoc]
  exact h

/-- The gate accepts only the canonical header `"ApiKey " ++ API_KEY`. -/
theorem verify_api_key_eq_none {API_KEY : String} {authorization : Option String}
    (h : verify_api_key API_KEY authorization = none) :
    authorization = some ("ApiKey " ++ API_KEY) := by
  cases authorization with
  | none => simp [verify_api_key] at h
  | some a =>
    unfold verify_api_key at h
    dsimp only at h
    by_cases ha : a = ""
    · rw [if_pos ha] at h; exact absurd h (by simp)
    · rw [if_neg ha] at h
      cases hsp : splitFirstSpace a.toList with
      | none => rw [hsp] at h; exact absurd h (by simp)
      | some p =>
        obtain ⟨scheme, token⟩ := p
        rw [hsp] at h
        dsimp only at h
        by_cases h1 : scheme = "ApiKey".toList
        · rw [if_neg (not_not_intro h1)] at h
          by_cases h2 : token = API_KEY.toList
          · subst h1
            subst h2
            exact congrArg some
              (string_eq_of_toList_append (splitFirstSpace_eq_some hsp))
          · rw [if_pos h2] at h
            exact absurd h (by simp)
        · rw [if_pos h1] at h
          exact absurd h (by simp)

/-- Every rejection of the gate carries the 403 status. -/
theorem verify_api_key_some_403 {API_KEY : String} {authorization : Option String}
    {e : HTTPError} (h : verify_api_key API_KEY authorization = some e) :
    e.status_code = 403 := by
  cases authorization with
  | none =>
    simp only [verify_api_key, Option.some.injEq] at h
    rw [← h]
  | some a =>
    unfold verify_api_key at h
    dsimp only at h
    by_cases ha : a = ""
    · rw [if_pos ha] at h
      simp only [Option.some.injEq] at h
      rw [← h]
    · rw [if_neg ha] at h
      cases hsp : splitFirstSpace a.toList with
      | none =>
        rw [hsp] at h
        simp only [Option.some.injEq] at h
        rw [← h]
      | some p =>
        obtain ⟨scheme, token⟩ := p
        rw [hsp] at h
        dsimp only at h
        by_cases h1 : scheme = "ApiKey".toList
        · rw [if_neg (not_not_intro h1)] at h
          by_cases h2 : token = API_KEY.toList
          · rw [if_neg (not_not_intro h2)] at h
            exact absurd h (by simp)
          · rw [if_pos h2] at h
            simp only [Option.some.injEq] at h
            rw [← h]
        · rw [if_pos h1] at h
          simp only [Option.some.injEq] at h
          rw [← h]

/-! Carrier-verification path lemmas. -/

/-- A 200 response with a parseable body reaches the normalization step. -/
theorem verify_carrier_200 (mc key text : String) (body : FmcsaBody)
    (hmc : pyIsdigit (pyStrip mc) = true) (hkey : ¬key = "") :
    verify_carrier mc key (.http 200 text (.ok body)) =
      normalizeCarrier (pyStrip mc) body := by
  unfold verify_carrier
  rw [if_neg (by simp [hmc]), if_neg hkey]
  dsimp only
  rw [if_neg (by decide), if_neg (by decide), if_neg (by simp)]

/-- The normalization of a body with a present carrier substructure, with all
verdict fields spelled out. -/
theorem normalizeCarrier_carrier (mc : String) (body : FmcsaBody)
    (content : FmcsaContent) (carrier : FmcsaCarrier)
    (hc : body.content = some content) (hcar : content.carrier = some carrier) :
    normalizeCarrier mc body =
      .verdict { mc_number := mc,
                 is_eligible := carrier.allowedToOperate.getD "N" == "Y"
                   && carrier.oosDate == none,
                 company_name := some (companyNameOf carrier),
                 safety_rating := carrier.safetyRating,
                 operating_status := some (
                   if pyTruthyOpt carrier.oosDate then "Out of Service"
                   else if carrier.allowedToOperate.getD "N" == "Y" then "Active"
                   else "Not Authorized"),
                 message := "Carrier is "
                   ++ (if carrier.allowedToOperate.getD "N" == "Y"
                         && carrier.oosDate == none then "eligible"
                       else "not eligible") ++ " to operate" } := by
  unfold normalizeCarrier
  rw [hc]
  dsimp only
  rw [hcar]

/-! Claim theorems. -/

/-- Claim C1 (amended): for every FMCSA success (200) response whose
`content.carrier` substructure is present, the verdict has
`is_eligible = true` iff `allowedToOperate` is exactly `"Y"` and the
out-of-service date is absent; and `operating_status` is `"Out of Service"`
if a non-empty out-of-service date is present (Python truthiness of
`oos_date`), else `"Active"` if `allowedToOperate` is `"Y"`, else
`"Not Authorized"`; in particular `oosDate = "2023-01-01"` yields
`is_eligible = false` and `operating_status = "Out of Service"` regardless
of `allowedToOperate`.  The amendment: the original claim labels by mere
presence of the field, but the source labels by truthiness, and the two
differ on a present-but-empty date (see the counterexample). -/
theorem carrier_eligibility_and_status (mc key text : String)
    (body : FmcsaBody) (content : FmcsaContent) (carrier : FmcsaCarrier)
    (r : CarrierVerificationResponse)
    (hmc : pyIsdigit (pyStrip mc) = true) (hkey : ¬key = "")
    (hc : body.content = some content) (hcar : content.carrier = some carrier)
    (hr : verify_carrier mc key (.http 200 text (.ok body)) = .verdict r) :
    (r.is_eligible = true ↔
      carrier.allowedToOperate.getD "N" = "Y" ∧ carrier.oosDate = none) ∧
    r.operating_status = some (
      if pyTruthyOpt carrier.oosDate then "Out of Service"
      else if carrier.allowedToOperate.getD "N" == "Y" then "Active"
      else "Not Authorized") ∧
    (carrier.oosDate = some "2023-01-01" →
      r.is_eligible = false ∧ r.operating_status = some "Out of Service") := by
  rw [verify_carrier_200 mc key text body hmc hkey,
      normalizeCarrier_carrier (pyStrip mc) body content carrier hc hcar] at hr
  injection hr with hr
  subst hr
  refine ⟨?_, rfl, ?_⟩
  · simp [Bool.and_eq_true, beq_iff_eq]
  · intro hd
    exact ⟨by simp [hd], by simp [hd, pyTruthyOpt]⟩

/-- Claim C1 counterexample: a 200 response whose carrier has
`allowedToOperate = "Y"` and a present-but-empty `oosDate` gets
`operating_status = "Active"`, not `"Out of Service"` — the source labels by
Python truthiness (`if oos_date:`) while the claim's label rule keys on mere
presence of the field. -/
theorem carrier_status_empty_oos_counterexample :
    verify_carrier "123456" "k" (.http 200 ""
        (.ok ⟨some ⟨some { allowedToOperate := some "Y",
                           oosDate := some "" }⟩⟩)) =
      .verdict { mc_number := "123456", is_eligible := false,
                 company_name := some "Unknown", safety_rating := none,
                 operating_status := some "Active",
                 message := "Carrier is not eligible to operate" } ∧
    ({ allowedToOperate := some "Y", oosDate := some "" } :
      FmcsaCarrier).oosDate ≠ none ∧
    (some "Active" : Option String) ≠ some "Out of Service" :=
  ⟨by decide, by decide, by decide⟩

/-- Witness for claim C1: the theorem applied to an out-of-service carrier
response, whose verdict is not eligible with status "Out of Service". -/
theorem carrier_eligibility_and_status_witness :
    ((false : Bool) = true ↔
      oosCarrier.allowedToOperate.getD "N" = "Y" ∧ oosCarrier.oosDate = none) ∧
    (some "Out of Service" : Option String) = some (
      if pyTruthyOpt oosCarrier.oosDate then "Out of Service"
      else if oosCarrier.allowedToOperate.getD "N" == "Y" then "Active"
      else "Not Authorized") ∧
    (oosCarrier.oosDate = some "2023-01-01" →
      (false : Bool) = false ∧
      (some "Out of Service" : Option String) = some "Out of Service") :=
  carrier_eligibility_and_status "123456" "k" "" ⟨some ⟨some oosCarrier⟩⟩
    ⟨some oosCarrier⟩ oosCarrier
    { mc_number := "123456", is_eligible := false,
      company_name := some "Unknown", safety_rating := none,
      operating_status := some "Out of Service",
      message := "Carrier is not eligible to operate" }
    (by decide) (by decide) rfl rfl (by decide)

/-- Claim C2: every record returned by the load search over a parsed catalog
is a member of the catalog and satisfies every supplied (truthy) filter —
origin and destination by case-insensitive containment of the trimmed query,
equipment type by case-insensitive exact equality — and with every filter
omitted nothing is excluded: the search returns the catalog truncated to the
cap (AND semantics, omitted filters pass everything). -/
theorem search_results_subset_of_filters :
    (∀ (c : List Load) (o d e : Option String) (n : Nat) (l : Load),
      l ∈ search_loads (.parsed c) o d e n →
      l ∈ c ∧
        (∀ oq, o = some oq → ¬oq = "" →
          pyContains (pyLower l.origin) (pyStrip (pyLower oq)) = true) ∧
        (∀ dq, d = some dq → ¬dq = "" →
          pyContains (pyLower l.destination) (pyStrip (pyLower dq)) = true) ∧
        (∀ q, e = some q → ¬q = "" →
          pyLower l.equipment_type = pyStrip (pyLower q))) ∧
    (∀ (c : List Load) (n : Nat),
      search_loads (.parsed c) none none none n = c.take n) := by
  refine ⟨?_, search_none_take⟩
  intro c o d e n l hl
  obtain ⟨hmem, ho, hd, he⟩ := mem_search_matches hl
  refine ⟨hmem, ?_, ?_, ?_⟩
  · rintro oq rfl hne
    simpa [originPred, hne] using ho
  · rintro dq rfl hne
    simpa [destinationPred, hne] using hd
  · rintro q rfl hne
    simp only [equipmentPred, if_neg hne] at he
    exact beq_iff_eq.mp he

/-- Witness for claim C2: searching a two-record catalog for origin
"chicago" returns only members matching the containment predicate, and the
unfiltered search returns the whole (under-cap) catalog. -/
theorem search_results_subset_of_filters_witness :
    chicagoLoad ∈ [chicagoLoad, dallasLoad] ∧
    pyContains (pyLower chicagoLoad.origin) (pyStrip (pyLower "chicago")) = true ∧
    search_loads (.parsed [chicagoLoad, dallasLoad]) none none none 5 =
      [chicagoLoad, dallasLoad] := by
  obtain ⟨hmem, ho, -, -⟩ := search_results_subset_of_filters.1
    [chicagoLoad, dallasLoad] (some "chicago") none none 5 chicagoLoad (by decide)
  refine ⟨hmem, ho "chicago" rfl (by decide), ?_⟩
  rw [search_results_subset_of_filters.2 [chicagoLoad, dallasLoad] 5]
  rfl

/-- Claim C3: the equipment-type filter keeps a record only when the
record's equipment-type field, case-folded, equals the case-folded trimmed
query exactly — never by substring containment: "Dry Van" does occur as a
substring of "Dry Van Plus", yet a "Dry Van Plus" record does not match a
"Dry Van" query. -/
theorem equipment_filter_exact_match :
    (∀ (c : List Load) (o d : Option String) (q : String) (n : Nat) (l : Load),
      ¬q = "" → l ∈ search_loads (.parsed c) o d (some q) n →
      pyLower l.equipment_type = pyStrip (pyLower q)) ∧
    pyContains (pyLower "Dry Van Plus") (pyStrip (pyLower "Dry Van")) = true ∧
    search_loads (.parsed [dryVanPlusLoad]) none none (some "Dry Van") 5 = [] := by
  refine ⟨?_, by decide, by decide⟩
  intro c o d q n l hq hl
  obtain ⟨-, -, -, he⟩ := mem_search_matches hl
  simp only [equipmentPred, if_neg hq] at he
  exact beq_iff_eq.mp he

/-- Witness for claim C3: a record surviving an equipment query "dry van"
has a case-folded equipment type exactly equal to the folded query. -/
theorem equipment_filter_exact_match_witness :
    pyLower chicagoLoad.equipment_type = pyStrip (pyLower "dry van") :=
  equipment_filter_exact_match.1 [chicagoLoad] none none "dry van" 5 chicagoLoad
    (by decide) (by decide)

/-- Claim C4 counterexample: the identifier `" 123456"` contains a non-digit
character (the leading space), yet the source strips it first, so
verification does not return the format-error verdict: with no FMCSA
credential it raises the 500 configuration error, and with a credential it
consults the external response (here a 404). -/
theorem nondigit_identifier_counterexample :
    (' ' ∈ " 123456".toList ∧ Char.isDigit ' ' = false) ∧
    verify_carrier " 123456" "" (.http 404 "" (.ok ⟨none⟩)) =
      .error ⟨500,
        "FMCSA API key not configured. Set FMCSA_API_KEY environment variable."⟩ ∧
    verify_carrier " 123456" "k" (.http 404 "" (.ok ⟨none⟩)) =
      .verdict { mc_number := "123456", is_eligible := false,
                 message := "Carrier not found in FMCSA database" } :=
  ⟨⟨by decide, by decide⟩, by decide, by decide⟩

/-- Claim C4 (amended): for every carrier identifier whose
whitespace-stripped form is empty or still contains a non-digit character,
verification returns the not-eligible format-error verdict, for every FMCSA
credential state and every registry outcome — hence without any external
call and without requiring the credential.  The amendment: the source strips
the identifier before the digit test, so an identifier whose only non-digit
characters are surrounding whitespace is not rejected. -/
theorem trimmed_nondigit_format_error (mc FMCSA_API_KEY : String)
    (fmcsa : FmcsaOutcome) (h : pyIsdigit (pyStrip mc) = false) :
    verify_carrier mc FMCSA_API_KEY fmcsa =
      .verdict { mc_number := pyStrip mc, is_eligible := false,
                 message := "Invalid MC number format" } := by
  unfold verify_carrier
  rw [if_pos (by simp [h])]

/-- Witness for claim C4: the identifier "12a" short-circuits to the
format-error verdict even with no credential configured. -/
theorem trimmed_nondigit_format_error_witness :
    verify_carrier "12a" "" .timeout =
      .verdict { mc_number := "12a", is_eligible := false,
                 message := "Invalid MC number format" } :=
  trimmed_nondigit_format_error "12a" "" .timeout (by decide)

/-- Claim C5: for every parsed catalog and cap in the validated range 1-20,
the search equals the conjunctive filter truncated to the cap, so it returns
exactly `min M n` records for `M` matches, and the result is a sublist of
the catalog — original order, no sorting or ranking. -/
theorem search_truncation_order (c : List Load) (o d e : Option String)
    (n : Nat) (h1 : 1 ≤ n) (h2 : n ≤ 20) :
    search_loads (.parsed c) o d e n =
      (c.filter (matchesFilters o d e)).take n ∧
    (search_loads (.parsed c) o d e n).length =
      min ((c.filter (matchesFilters o d e)).length) n ∧
    (search_loads (.parsed c) o d e n).Sublist c := by
  refine ⟨search_loads_parsed_eq c o d e n, ?_, ?_⟩
  · rw [search_loads_parsed_eq, List.length_take, Nat.min_comm]
  · rw [search_loads_parsed_eq]
    exact (List.take_sublist n _).trans (List.filter_sublist c)

/-- Witness for claim C5: a two-record catalog with cap 1 returns exactly
one record, in catalog order. -/
theorem search_truncation_order_witness :
    search_loads (.parsed [chicagoLoad, dallasLoad]) none none none 1 =
      ([chicagoLoad, dallasLoad].filter (matchesFilters none none none)).take 1 ∧
    (search_loads (.parsed [chicagoLoad, dallasLoad]) none none none 1).length =
      min (([chicagoLoad, dallasLoad].filter
        (matchesFilters none none none)).length) 1 ∧
    (search_loads (.parsed [chicagoLoad, dallasLoad]) none none none 1).Sublist
      [chicagoLoad, dallasLoad] :=
  search_truncation_order [chicagoLoad, dallasLoad] none none none 1
    (by decide) (by decide)

/-- Claim C6 counterexample: on a 404 from the registry the verdict message
is the sentence "Carrier not found in FMCSA database", not the literal
"carrier not found" stated by the claim. -/
theorem not_found_message_counterexample :
    verify_carrier "999999" "k" (.http 404 "" (.ok ⟨none⟩)) =
      .verdict { mc_number := "999999", is_eligible := false,
                 message := "Carrier not found in FMCSA database" } ∧
    "Carrier not found in FMCSA database" ≠ "carrier not found" :=
  ⟨by decide, by decide⟩

/-- Claim C6 (amended): when the external registry lookup returns 404, the
verification operation succeeds (returns a verdict rather than raising) with
`is_eligible = false` and the carrier-not-found message "Carrier not found
in FMCSA database".  The amendment fixes only the exact message text. -/
theorem not_found_verdict (mc key text : String) (body : FmcsaBodyResult)
    (hmc : pyIsdigit (pyStrip mc) = true) (hkey : ¬key = "") :
    verify_carrier mc key (.http 404 text body) =
      .verdict { mc_number := pyStrip mc, is_eligible := false,
                 message := "Carrier not found in FMCSA database" } := by
  unfold verify_carrier
  rw [if_neg (by simp [hmc]), if_neg hkey]
  dsimp only
  rw [if_pos rfl]

/-- Witness for claim C6: identifier "999999" with a 404 registry response. -/
theorem not_found_verdict_witness :
    verify_carrier "999999" "k" (.http 404 "" (.ok ⟨none⟩)) =
      .verdict { mc_number := "999999", is_eligible := false,
                 message := "Carrier not found in FMCSA database" } :=
  not_found_verdict "999999" "k" "" (.ok ⟨none⟩) (by decide) (by decide)

/-- Claim C7: with the FMCSA credential unconfigured (empty), verifying any
all-digit identifier fails with the 500 configuration error — a server-side
failure, not a client error and not a verdict — identically for every
possible registry outcome (so the failure needs no external call); and the
load-search endpoint is unaffected by the FMCSA credential, so its absence
is fatal only to verification requests. -/
theorem missing_fmcsa_key_config_error :
    (∀ (mc : String) (fmcsa : FmcsaOutcome), pyIsdigit mc = true →
      verify_carrier mc "" fmcsa =
        .error ⟨500,
          "FMCSA API key not configured. Set FMCSA_API_KEY environment variable."⟩) ∧
    (∀ (a k k' : String) (auth : Option String) (file : LoadsFile)
        (o d q : Option String) (n : Nat),
      search_loads_endpoint ⟨a, k⟩ auth file o d q n =
        search_loads_endpoint ⟨a, k'⟩ auth file o d q n) := by
  constructor
  · intro mc fmcsa hmc
    unfold verify_carrier
    rw [pyStrip_of_isdigit hmc, if_neg (by simp [hmc]), if_pos rfl]
  · intro a k k' auth file o d q n
    rfl

/-- Witness for claim C7: identifier "123456" with an empty FMCSA credential
fails with the configuration error, while the search endpoint gives the same
answer whether the FMCSA credential is set or empty. -/
theorem missing_fmcsa_key_config_error_witness :
    verify_carrier "123456" "" .timeout =
      .error ⟨500,
        "FMCSA API key not configured. Set FMCSA_API_KEY environment variable."⟩ ∧
    search_loads_endpoint ⟨"secret", "fmcsa-key"⟩ (some "ApiKey secret") .absent
        none none none 5 =
      search_loads_endpoint ⟨"secret", ""⟩ (some "ApiKey secret") .absent
        none none none 5 :=
  ⟨missing_fmcsa_key_config_error.1 "123456" .timeout (by decide),
   missing_fmcsa_key_config_error.2 "secret" "fmcsa-key" "" (some "ApiKey secret")
     .absent none none none 5⟩

/-- Claim C8: whenever the credential header is absent, or is not of the
two-token form "ApiKey <token>", or carries a token that differs from the
configured secret, the gate raises a 403 error, and both protected endpoints
return exactly that error for every combination of their remaining inputs —
the rejection precedes all other work. -/
theorem auth_gate_rejects (API_KEY FMCSA_API_KEY : String)
    (authorization : Option String)
    (h : authorization = none ∨
      (∃ a, authorization = some a ∧ ∀ t, ¬a = "ApiKey " ++ t) ∨
      (∃ t, authorization = some ("ApiKey " ++ t) ∧ ¬t = API_KEY)) :
    ∃ e, verify_api_key API_KEY authorization = some e ∧ e.status_code = 403 ∧
      (∀ mc fmcsa, verify_carrier_endpoint ⟨API_KEY, FMCSA_API_KEY⟩
        authorization mc fmcsa = .error e) ∧
      (∀ file o d q n, search_loads_endpoint ⟨API_KEY, FMCSA_API_KEY⟩
        authorization file o d q n = .error e) := by
  cases hres : verify_api_key API_KEY authorization with
  | none =>
    exfalso
    have hcanon := verify_api_key_eq_none hres
    rcases h with rfl | ⟨a, rfl, hall⟩ | ⟨t, heq, hne⟩
    · exact absurd hcanon (by simp)
    · rw [Option.some.injEq] at hcanon
      exact hall API_KEY hcanon
    · rw [heq, Option.some.injEq] at hcanon
      have ht : t = API_KEY := by
        have h2 := congrArg String.data hcanon
        rw [String.data_append, String.data_append] at h2
        exact String.ext (List.append_cancel_left h2)
      exact hne ht
  | some e =>
    refine ⟨e, rfl, verify_api_key_some_403 hres, ?_, ?_⟩
    · intro mc fmcsa
      simp [verify_carrier_endpoint, hres]
    · intro file o d q n
      simp [search_loads_endpoint, hres]

/-- Witness for claim C8: a well-formed header with the wrong token is
rejected with 403 by the gate and by both endpoints. -/
theorem auth_gate_rejects_witness :
    verify_api_key "s3cret" (some "ApiKey wrong") =
      some ⟨403, "Invalid API Key"⟩ ∧
    verify_carrier_endpoint ⟨"s3cret", "fk"⟩ (some "ApiKey wrong")
        "123456" .timeout = .error ⟨403, "Invalid API Key"⟩ ∧
    search_loads_endpoint ⟨"s3cret", "fk"⟩ (some "ApiKey wrong")
        .absent none none none 5 = .error ⟨403, "Invalid API Key"⟩ := by
  obtain ⟨e, he, h403, hv, hs⟩ := auth_gate_rejects "s3cret" "fk"
    (some "ApiKey wrong") (Or.inr (Or.inr ⟨"wrong", by decide, by decide⟩))
  have hx : some e = some (⟨403, "Invalid API Key"⟩ : HTTPError) := by
    rw [← he]
    decide
  rw [Option.some.injEq] at hx
  subst hx
  exact ⟨he, hv "123456" .timeout, hs .absent none none none 5⟩

/-- Claim C9: the catalog loader never fails the request — an absent source
yields the empty catalog (with a warning diagnostic), an unparseable source
yields the empty catalog and logs the error diagnostic, and consequently the
load search over an absent or malformed source returns the empty result for
every filter combination rather than an error. -/
theorem catalog_loader_fail_open :
    load_loads_from_file .absent =
      ([], ["Warning: loads.json not found. Using empty list."]) ∧
    (∀ e, load_loads_from_file (.malformed e) =
      ([], ["Error loading loads.json: " ++ e])) ∧
    (∀ (o d q : Option String) (n : Nat),
      search_loads .absent o d q n = [] ∧
      ∀ e, search_loads (.malformed e) o d q n = []) :=
  ⟨rfl, fun _ => rfl, fun _ _ _ _ => ⟨rfl, fun _ => rfl⟩⟩

/-- Claim C10: a filter parameter supplied as the empty string behaves
exactly as if it were omitted (all three parameters), and an origin or
destination parameter consisting only of whitespace excludes no records —
it trims to the empty query, which every field contains. -/
theorem empty_and_whitespace_filters_noop :
    (∀ (file : LoadsFile) (d q : Option String) (n : Nat),
      search_loads file (some "") d q n = search_loads file none d q n) ∧
    (∀ (file : LoadsFile) (o q : Option String) (n : Nat),
      search_loads file o (some "") q n = search_loads file o none q n) ∧
    (∀ (file : LoadsFile) (o d : Option String) (n : Nat),
      search_loads file o d (some "") n = search_loads file o d none n) ∧
    (∀ w : String, ¬w = "" → w.toList.all Char.isWhitespace = true →
      (∀ (file : LoadsFile) (d q : Option String) (n : Nat),
        search_loads file (some w) d q n = search_loads file none d q n) ∧
      (∀ (file : LoadsFile) (o q : Option String) (n : Nat),
        search_loads file o (some w) q n = search_loads file o none q n)) :=
  ⟨search_origin_empty, search_destination_empty, search_equipment_empty,
   fun _ hw hws => ⟨search_origin_ws hw hws, search_destination_ws hw hws⟩⟩

/-- Witness for claim C10: a single-space origin or destination query gives
the same result as omitting the parameter. -/
theorem empty_and_whitespace_filters_noop_witness :
    search_loads (.parsed [chicagoLoad]) (some " ") none none 5 =
      search_loads (.parsed [chicagoLoad]) none none none 5 ∧
    search_loads (.parsed [chicagoLoad]) none (some " ") none 5 =
      search_loads (.parsed [chicagoLoad]) none none none 5 :=
  ⟨(empty_and_whitespace_filters_noop.2.2.2 " " (by decide) (by decide)).1
      (.parsed [chicagoLoad]) none none 5,
   (empty_and_whitespace_filters_noop.2.2.2 " " (by decide) (by decide)).2
      (.parsed [chicagoLoad]) none none 5⟩

end HappyRobot
